import Mathlib

/-!
Verification of the streaming mask-propagation protocol of
`demo/backend/server/app.py` (propagation endpoint, orchestrator generator,
frame-message codec) against its natural-language specification.

Bytes are modelled as `List Char` (the payloads here are all textual), Python
values decoded from JSON are modelled by the inductive `Json` below, with
`Json.null` standing for Python `None`.
-/

set_option maxHeartbeats 1000000
set_option maxRecDepth 100000

/-- A JSON-like Python value, as produced by `request.json`.
`Json.null` plays the role of Python `None`. -/
inductive Json where
  | null
  | bool (b : Bool)
  | num (n : Int)
  | str (s : String)
  | arr (xs : List Json)
  | obj (fields : List (String × Json))

/-- Python `x is None` on a decoded JSON value. -/
def Json.isNull : Json → Bool
  | .null => true
  | _ => false

/-- Python `dict.get(key, dflt)` on an object decoded from JSON text: the last
binding of a duplicated key wins (as in `json.loads`), and an explicitly
stored `null` is returned as such (the default only covers absence). -/
def pyGet (fields : List (String × Json)) (key : String) (dflt : Json) : Json :=
  match List.lookup key fields.reverse with
  | some v => v
  | none => dflt

/-- Outcome of the `/propagate_in_video` endpoint body, before the streaming
generator (if any) is ever run: either an early `make_response(text, status)`,
or a committed streaming `Response` carrying the mimetype and the arguments
the (not yet executed) generator was created with, or an uncaught Python
`AttributeError` (raised by `.get` when `request.json` is a non-object). -/
inductive EndpointResult where
  | badRequest (body : String) (status : Nat)
  | streaming (mimetype : String) (boundary : String)
      (session_id : Json) (start_frame_index : Json) (quick_test_mode : Json)
  | attrError

/-- `propagate_in_video` from `demo/backend/server/app.py`: the input is the
value of `request.json` (`none` = Python `None`: unparseable body or a
top-level JSON `null`). -/
def propagate_in_video (data : Option Json) : EndpointResult :=
  match data with
  | none => .badRequest "Invalid JSON" 400
  | some (.obj fields) =>
    let session_id := pyGet fields "session_id" Json.null
    let start_frame_index := pyGet fields "start_frame_index" (Json.num 0)
    let quick_test_mode := pyGet fields "quick_test_mode" (Json.bool false)
    if session_id.isNull then .badRequest "Missing session_id" 400
    else .streaming ("multipart/x-savi-stream; boundary=" ++ "frame") "frame"
      session_id start_frame_index quick_test_mode
  | some _ => .attrError

/-- Observer: does the endpoint return an early (non-streaming) 400-class
`make_response`? -/
def EndpointResult.isBadRequest : EndpointResult → Bool
  | .badRequest _ _ => true
  | _ => false

/-- Observer: did the endpoint commit to a streaming `Response`? -/
def EndpointResult.isStreaming : EndpointResult → Bool
  | .streaming _ _ _ _ _ => true
  | _ => false

/-- HTTP status the endpoint commits to (a committed stream is 200; an
uncaught exception surfaces as Flask's 500). -/
def EndpointResult.statusOf : EndpointResult → Nat
  | .badRequest _ s => s
  | .streaming _ _ _ _ _ => 200
  | .attrError => 500

/-! ## Frame Message Codec

Modelled from the spec: `MultipartResponseBuilder` lives in
`inference/multipart.py`, which is not under `src/`; spec §4.2 defines the
wire format: boundary marker on its own line, one `key: value` header line
per pair in insertion order, a blank line, the raw body bytes, and a trailing
line terminator. -/

/-- A line terminator, CR LF. -/
def crlf : List Char := ['\r', '\n']

/-- Modelled from the spec: one header line `key: value` followed by CR LF
(spec §4.2, §6 wire format). -/
def headerLine (kv : String × String) : List Char :=
  kv.1.toList ++ ':' :: ' ' :: kv.2.toList ++ crlf

/-- Modelled from the spec: `encode(boundary, headers, body)` of the Frame
Message Codec (§4.2); in the repository this is
`MultipartResponseBuilder.build(boundary, headers, body).get_message()`,
whose source is not under `src/`. -/
def encode (boundary : String) (headers : List (String × String))
    (body : List Char) : List Char :=
  '-' :: '-' :: boundary.toList ++ crlf
    ++ (headers.map headerLine).flatten
    ++ crlf ++ body ++ crlf

/-- Split a character list at the first occurrence of the two-character
separator `a b`, returning the part before and the part after. -/
def splitTwo (a b : Char) : List Char → Option (List Char × List Char)
  | [] => none
  | [_] => none
  | c :: d :: rest2 =>
    if c = a ∧ d = b then some ([], rest2)
    else (splitTwo a b (d :: rest2)).map fun p => (c :: p.1, p.2)

/-- Parse one header line `key: value` (split at the first `: `). -/
def parseHeaderLine (line : List Char) : Option (String × String) :=
  (splitTwo ':' ' ' line).map fun p => (String.mk p.1, String.mk p.2)

/-- Parse the header section with an explicit fuel bound on the number of
lines: header lines up to the first blank line; returns the headers in order
and the remaining bytes. -/
def parseHeadersF : Nat → List Char →
    Option (List (String × String) × List Char)
  | 0, _ => none
  | fuel + 1, l =>
    match splitTwo '\r' '\n' l with
    | none => none
    | some (line, rest) =>
      if line.isEmpty then some ([], rest)
      else
        match parseHeaderLine line with
        | none => none
        | some kv =>
          match parseHeadersF fuel rest with
          | none => none
          | some (hs, body) => some (kv :: hs, body)

/-- Modelled from the spec: parse the header section of a message; every
header line consumes at least one character, so `length + 1` fuel always
suffices. -/
def parseHeaders (l : List Char) :
    Option (List (String × String) × List Char) :=
  parseHeadersF (l.length + 1) l

/-- Match and remove an exact leading character sequence. -/
def dropPre : List Char → List Char → Option (List Char)
  | [], l => some l
  | _ :: _, [] => none
  | a :: p, b :: l => if a = b then dropPre p l else none

/-- Remove the trailing CR LF line terminator. -/
def stripFinalCrlf (l : List Char) : Option (List Char) :=
  match l.reverse with
  | '\n' :: '\r' :: r => some r.reverse
  | _ => none

/-- Modelled from the spec: `decode(bytes) -> (headers, body)`, the exact
inverse of `encode` for a single message given its bounding boundary markers
(§4.2); the repository ships no decoder, it is used in test/validation
contexts only (§7). -/
def decode (boundary : String) (msg : List Char) :
    Option (List (String × String) × List Char) :=
  (dropPre ('-' :: '-' :: boundary.toList ++ crlf) msg).bind fun r1 =>
    (parseHeaders r1).bind fun p =>
      (stripFinalCrlf p.2).map fun body => (p.1, body)

/-- Headers a delimiter-based encoding can frame unambiguously: no colon in
the key, no carriage return in key or value. -/
def validHeader (kv : String × String) : Prop :=
  ':' ∉ kv.1.toList ∧ '\r' ∉ kv.1.toList ∧ '\r' ∉ kv.2.toList

instance (kv : String × String) : Decidable (validHeader kv) := by
  unfold validHeader; infer_instance

/-! ## Orchestrator: `gen_track_with_mask_stream`

The generator in `demo/backend/server/app.py` wraps the engine iteration in
`with inference_api.autocast_context():`, builds a `PropagateInVideoRequest`
and, per engine chunk, yields one encoded multipart message whose body is
`chunk.to_json().encode("UTF-8")`. Its execution is modelled as the trace of
events `acquire / emit / release / raiseErr` produced by Python generator
semantics for a given engine behavior and a given consumer. -/

/-- Modelled from the spec: a `FrameResult` — one engine output for one video
frame (§3): frame index, total frames, and a mapping from object id to an
RLE-encoded mask. The repository's `PropagateDataResponse`
(`inference/data_types.py`) is not under `src/`. -/
structure FrameResult where
  frame_index : Int
  total_frames : Int
  masks : List (Nat × String)

/-- Modelled from the spec: one `object_id -> RLE mask` entry of the body
JSON document (§6). -/
def renderMaskEntry (m : Nat × String) : String :=
  "\"" ++ toString m.1 ++ "\": \"" ++ m.2 ++ "\""

/-- Modelled from the spec: `chunk.to_json()` — the FrameResult serialized as
a self-contained JSON document `\x7bframe_index, masks\x7d` (§4.4, §6); the
repository serializer (`PropagateDataResponse.to_json`) is not under `src/`. -/
def FrameResult.to_json (r : FrameResult) : String :=
  "\x7b\"frame_index\": " ++ toString r.frame_index
    ++ ", \"masks\": \x7b"
    ++ String.intercalate ", " (r.masks.map renderMaskEntry)
    ++ "\x7d\x7d"

/-- `str.encode("UTF-8")` in the `List Char` byte model. -/
def strBytes (s : String) : List Char := s.toList

/-- The literal header mapping passed to `MultipartResponseBuilder.build` in
`gen_track_with_mask_stream`. -/
def frameHeaders : List (String × String) :=
  [("Content-Type", "application/json; charset=utf-8"),
   ("Frame-Current", "-1"),
   ("Frame-Total", "-1"),
   ("Mask-Type", "RLE[]")]

/-- One yielded message of `gen_track_with_mask_stream`:
`MultipartResponseBuilder.build(boundary, headers, chunk.to_json().encode("UTF-8")).get_message()`. -/
def frameMessage (boundary : String) (chunk : FrameResult) : List Char :=
  encode boundary frameHeaders (strBytes chunk.to_json)

/-- The request object built inside `gen_track_with_mask_stream` and handed
to `inference_api.propagate_in_video`. Field values are Python values decoded
from the JSON payload (the code adds no typing). -/
structure PropagateInVideoRequest where
  type : String
  session_id : Json
  start_frame_index : Json
  quick_test_mode : Json

/-- The `PropagateInVideoRequest(...)` constructor call in
`gen_track_with_mask_stream`. -/
def gen_track_request (session_id start_frame_index quick_test_mode : Json) :
    PropagateInVideoRequest :=
  ⟨"propagate_in_video", session_id, start_frame_index, quick_test_mode⟩

/-- Errors the external engine can raise (spec §4.3, §7). -/
inductive EngineError where
  | sessionNotFound
  | inferenceFailure (msg : String)

/-- Behavior of one `inference_api.propagate_in_video(request)` iteration:
the frames the engine would produce, and optionally a raise after emitting a
given number of them. -/
structure EngineBehavior where
  results : List FrameResult
  raiseAt : Option (Nat × EngineError)

/-- The chunks the engine actually yields before completing or raising. -/
def engineYields (e : EngineBehavior) : List FrameResult :=
  match e.raiseAt with
  | some (k, _) => e.results.take k
  | none => e.results

/-- Observable events of one generator execution. -/
inductive Ev where
  | acquire
  | emit (msg : List Char)
  | release
  | raiseErr (e : EngineError)

def Ev.isEmit : Ev → Bool
  | .emit _ => true
  | _ => false

def Ev.isAcquire : Ev → Bool
  | .acquire => true
  | _ => false

def Ev.isRelease : Ev → Bool
  | .release => true
  | _ => false

/-- The `emit` events for a list of engine chunks, in order. -/
def emitsFor (boundary : String) (cs : List FrameResult) : List Ev :=
  cs.map fun c => .emit (frameMessage boundary c)

/-- The trailing `raiseErr` event, when the engine raises and the consumer
pulls far enough to observe it. -/
def raiseEv (e : EngineBehavior) : List Ev :=
  match e.raiseAt with
  | some (_, err) => [.raiseErr err]
  | none => []

/-- Python generator semantics for the body of `gen_track_with_mask_stream`,
given the engine's behavior for the request and the consumer's pull budget
(`none` = pull to completion; `some m` = the consumer closes the generator
after receiving `m` messages). The `with autocast_context()` block acquires
on first pull and its cleanup runs on every exit of the body — normal
exhaustion, an engine raise, or `GeneratorExit` on abandonment; a generator
that is never pulled never starts, so nothing is acquired or released. -/
def runGen (eng : EngineBehavior) (boundary : String) (pulls : Option Nat) :
    List Ev :=
  match pulls with
  | some 0 => []
  | some (m + 1) =>
    if m + 1 ≤ (engineYields eng).length then
      .acquire :: emitsFor boundary ((engineYields eng).take (m + 1))
        ++ [.release]
    else
      .acquire :: emitsFor boundary (engineYields eng)
        ++ .release :: raiseEv eng
  | none =>
    .acquire :: emitsFor boundary (engineYields eng)
      ++ .release :: raiseEv eng

/-- `gen_track_with_mask_stream` from `demo/backend/server/app.py`: builds
the request object, hands it to the engine, and runs the generator body. -/
def gen_track_with_mask_stream (api : PropagateInVideoRequest → EngineBehavior)
    (boundary : String) (session_id start_frame_index quick_test_mode : Json)
    (pulls : Option Nat) : List Ev :=
  runGen (api (gen_track_request session_id start_frame_index quick_test_mode))
    boundary pulls

/-- The full endpoint run: the endpoint body decides status, body text and
mimetype without touching the engine; only the streaming branch later drives
the generator. Result: `((status, mimetype-or-body), generator trace)`. -/
def handle (api : PropagateInVideoRequest → EngineBehavior)
    (data : Option Json) (pulls : Option Nat) : (Nat × String) × List Ev :=
  match propagate_in_video data with
  | .badRequest body s => ((s, body), [])
  | .streaming mt b sid sfi qtm =>
    ((200, mt), gen_track_with_mask_stream api b sid sfi qtm pulls)
  | .attrError => ((500, "AttributeError"), [])

/-- The messages emitted along a trace, in order. -/
def emittedMsgs (t : List Ev) : List (List Char) :=
  t.filterMap fun e =>
    match e with
    | .emit m => some m
    | _ => none

/-- The `Frame-Current` header value of an encoded message, recovered by the
codec. -/
def frameCurrentOf (msg : List Char) : Option String :=
  (decode "frame" msg).bind fun p => List.lookup "Frame-Current" p.1

/-- No `emit` event occurs after the first `release` of a trace. -/
def noEmitAfterRelease : List Ev → Bool
  | [] => true
  | .release :: rest => rest.all fun e => !e.isEmit
  | _ :: rest => noEmitAfterRelease rest

/-- The execution-context bracketing property of one generator run: the first
event is the acquisition, there is exactly one acquisition and exactly one
release, no message is emitted after the release, and when the engine raises
after emitting `k` of its `n` results and the consumer pulls to the end,
exactly `min k n` messages are emitted. -/
def BracketSpec (eng : EngineBehavior) (boundary : String)
    (pulls : Option Nat) : Prop :=
  (runGen eng boundary pulls).head? = some .acquire ∧
  (runGen eng boundary pulls).countP Ev.isAcquire = 1 ∧
  (runGen eng boundary pulls).countP Ev.isRelease = 1 ∧
  noEmitAfterRelease (runGen eng boundary pulls) = true ∧
  ∀ k err, eng.raiseAt = some (k, err) → pulls = none →
    (runGen eng boundary pulls).countP Ev.isEmit = min k eng.results.length

/-- A concrete adapter sequence of four frame results with indices 0..3. -/
def cexFrames : List FrameResult :=
  [⟨0, 4, []⟩, ⟨1, 4, []⟩, ⟨2, 4, []⟩, ⟨3, 4, []⟩]

/-- A concrete engine behavior that raises `InferenceFailure` after emitting
2 of its 5 results. -/
def cexEngine : EngineBehavior :=
  ⟨[⟨0, 5, []⟩, ⟨1, 5, []⟩, ⟨2, 5, []⟩, ⟨3, 5, []⟩, ⟨4, 5, []⟩],
   some (2, .inferenceFailure "hardware fault")⟩

/-! ## Codec lemmas: the round-trip property -/

theorem mk_toList (s : String) : String.mk s.toList = s := rfl

theorem dropPre_append (p rest : List Char) : dropPre p (p ++ rest) = some rest := by
  induction p with
  | nil => rfl
  | cons a p ih => simp [dropPre, ih]

theorem stripFinalCrlf_append (body : List Char) :
    stripFinalCrlf (body ++ crlf) = some body := by
  simp [stripFinalCrlf, crlf, List.reverse_append]

theorem splitTwo_append {a b : Char} (rest : List Char) :
    ∀ (v : List Char), a ∉ v →
      splitTwo a b (v ++ a :: b :: rest) = some (v, rest) := by
  intro v
  induction v with
  | nil =>
    intro _
    simp [splitTwo]
  | cons c v' ih =>
    intro hmem
    have hca : ¬ c = a := fun h => hmem (by simp [h])
    have hav' : a ∉ v' := fun h => hmem (List.mem_cons_of_mem _ h)
    cases v' with
    | nil =>
      simp [splitTwo, hca]
    | cons e v'' =>
      have hrec := ih hav'
      simp only [List.cons_append] at hrec ⊢
      simp only [splitTwo]
      rw [if_neg (fun h => hca h.1)]
      rw [hrec]
      rfl

theorem headerLine_length (kv : String × String) : 1 ≤ (headerLine kv).length := by
  simp [headerLine, crlf]
  omega

theorem length_le_flatten (hs : List (String × String)) :
    hs.length ≤ ((hs.map headerLine).flatten).length := by
  induction hs with
  | nil => simp
  | cons kv t ih =>
    have := headerLine_length kv
    simp only [List.map_cons, List.flatten_cons, List.length_append,
      List.length_cons]
    omega

theorem parseHeadersF_encode :
    ∀ (hs : List (String × String)) (fuel : Nat) (tail : List Char),
      hs.length < fuel → (∀ kv ∈ hs, validHeader kv) →
      parseHeadersF fuel ((hs.map headerLine).flatten ++ '\r' :: '\n' :: tail)
        = some (hs, tail) := by
  intro hs
  induction hs with
  | nil =>
    intro fuel tail hf _
    cases fuel with
    | zero => omega
    | succ f =>
      simp only [List.map_nil, List.flatten_nil, List.nil_append]
      simp [parseHeadersF, splitTwo]
  | cons kv hs' ih =>
    intro fuel tail hf hvalid
    obtain ⟨hk_colon, hk_cr, hv_cr⟩ := hvalid kv (by simp)
    cases fuel with
    | zero => omega
    | succ f =>
      have hrec := ih f tail
        (by simp only [List.length_cons] at hf; omega)
        (fun kv2 h2 => hvalid kv2 (List.mem_cons_of_mem _ h2))
      have hshape : ((kv :: hs').map headerLine).flatten ++ '\r' :: '\n' :: tail
          = (kv.1.toList ++ ':' :: ' ' :: kv.2.toList)
            ++ '\r' :: '\n'
              :: ((hs'.map headerLine).flatten ++ '\r' :: '\n' :: tail) := by
        simp [headerLine, crlf, List.append_assoc]
      have hnocr : '\r' ∉ kv.1.toList ++ ':' :: ' ' :: kv.2.toList := by
        intro hmem
        simp only [List.mem_append, List.mem_cons] at hmem
        rcases hmem with h | h | h | h
        · exact hk_cr h
        · exact absurd h (by decide)
        · exact absurd h (by decide)
        · exact hv_cr h
      rw [hshape]
      simp only [parseHeadersF]
      rw [splitTwo_append _ _ hnocr]
      have hne : ¬ ((kv.1.toList ++ ':' :: ' ' :: kv.2.toList).isEmpty = true) := by
        simp
      simp only [hne, if_false, reduceIte]
      have hline : parseHeaderLine (kv.1.toList ++ ':' :: ' ' :: kv.2.toList)
          = some kv := by
        unfold parseHeaderLine
        rw [splitTwo_append _ _ hk_colon]
        simp [mk_toList]
      rw [hline, hrec]
      simp

theorem decode_encode_valid (b : String) (hs : List (String × String))
    (body : List Char) (hvalid : ∀ kv ∈ hs, validHeader kv) :
    decode b (encode b hs body) = some (hs, body) := by
  have hshape : encode b hs body
      = ('-' :: '-' :: b.toList ++ crlf)
        ++ ((hs.map headerLine).flatten ++ '\r' :: '\n' :: (body ++ crlf)) := by
    simp [encode, crlf, List.append_assoc]
  have hp : parseHeaders
      ((hs.map headerLine).flatten ++ '\r' :: '\n' :: (body ++ crlf))
      = some (hs, body ++ crlf) := by
    unfold parseHeaders
    apply parseHeadersF_encode _ _ _ _ hvalid
    have := length_le_flatten hs
    simp only [List.length_append, List.length_cons]
    omega
  simp only [decode]
  rw [hshape, dropPre_append]
  simp [hp, stripFinalCrlf_append]

/-! ## Trace lemmas -/

theorem emitsFor_cons (b : String) (c : FrameResult) (t : List FrameResult) :
    emitsFor b (c :: t) = .emit (frameMessage b c) :: emitsFor b t := rfl

theorem emittedMsgs_nil : emittedMsgs [] = [] := rfl

theorem emittedMsgs_acquire (t : List Ev) :
    emittedMsgs (.acquire :: t) = emittedMsgs t := rfl

theorem emittedMsgs_release (t : List Ev) :
    emittedMsgs (.release :: t) = emittedMsgs t := rfl

theorem emittedMsgs_raise (e : EngineError) (t : List Ev) :
    emittedMsgs (.raiseErr e :: t) = emittedMsgs t := rfl

theorem emittedMsgs_emit (m : List Char) (t : List Ev) :
    emittedMsgs (.emit m :: t) = m :: emittedMsgs t := rfl

theorem emittedMsgs_append (s t : List Ev) :
    emittedMsgs (s ++ t) = emittedMsgs s ++ emittedMsgs t := by
  simp [emittedMsgs, List.filterMap_append]

theorem emittedMsgs_emitsFor (b : String) :
    ∀ cs : List FrameResult,
      emittedMsgs (emitsFor b cs) = cs.map (frameMessage b) := by
  intro cs
  induction cs with
  | nil => rfl
  | cons c t ih => rw [emitsFor_cons, emittedMsgs_emit, ih, List.map_cons]

theorem emittedMsgs_raiseEv (eng : EngineBehavior) :
    emittedMsgs (raiseEv eng) = [] := by
  rcases h : eng.raiseAt with _ | ⟨k, err⟩ <;> simp [raiseEv, h, emittedMsgs]

theorem emitsFor_countP_acquire (b : String) :
    ∀ cs : List FrameResult, (emitsFor b cs).countP Ev.isAcquire = 0 := by
  intro cs
  induction cs with
  | nil => rfl
  | cons c t ih =>
    rw [emitsFor_cons, List.countP_cons]
    simp [Ev.isAcquire, ih]

theorem emitsFor_countP_release (b : String) :
    ∀ cs : List FrameResult, (emitsFor b cs).countP Ev.isRelease = 0 := by
  intro cs
  induction cs with
  | nil => rfl
  | cons c t ih =>
    rw [emitsFor_cons, List.countP_cons]
    simp [Ev.isRelease, ih]

theorem emitsFor_countP_emit (b : String) :
    ∀ cs : List FrameResult, (emitsFor b cs).countP Ev.isEmit = cs.length := by
  intro cs
  induction cs with
  | nil => rfl
  | cons c t ih =>
    rw [emitsFor_cons, List.countP_cons]
    simp [Ev.isEmit, ih]

theorem raiseEv_countP_acquire (eng : EngineBehavior) :
    (raiseEv eng).countP Ev.isAcquire = 0 := by
  rcases h : eng.raiseAt with _ | ⟨k, err⟩ <;>
    simp [raiseEv, h, List.countP_cons, Ev.isAcquire]

theorem raiseEv_countP_release (eng : EngineBehavior) :
    (raiseEv eng).countP Ev.isRelease = 0 := by
  rcases h : eng.raiseAt with _ | ⟨k, err⟩ <;>
    simp [raiseEv, h, List.countP_cons, Ev.isRelease]

theorem raiseEv_countP_emit (eng : EngineBehavior) :
    (raiseEv eng).countP Ev.isEmit = 0 := by
  rcases h : eng.raiseAt with _ | ⟨k, err⟩ <;>
    simp [raiseEv, h, List.countP_cons, Ev.isEmit]

theorem noEmitAfterRelease_acquire (t : List Ev) :
    noEmitAfterRelease (.acquire :: t) = noEmitAfterRelease t := rfl

theorem noEmitAfterRelease_emit (m : List Char) (t : List Ev) :
    noEmitAfterRelease (.emit m :: t) = noEmitAfterRelease t := rfl

theorem noEmitAfterRelease_rel (t : List Ev) :
    noEmitAfterRelease (.release :: t) = t.all fun e => !e.isEmit := rfl

theorem noEmitAfterRelease_emitsFor (b : String) :
    ∀ (cs : List FrameResult) (t : List Ev),
      noEmitAfterRelease (emitsFor b cs ++ t) = noEmitAfterRelease t := by
  intro cs
  induction cs with
  | nil => intro t; rfl
  | cons c cs' ih =>
    intro t
    rw [emitsFor_cons, List.cons_append, noEmitAfterRelease_emit, ih]

theorem allNotEmit_raiseEv (eng : EngineBehavior) :
    ((raiseEv eng).all fun e => !e.isEmit) = true := by
  rcases h : eng.raiseAt with _ | ⟨k, err⟩ <;> simp [raiseEv, h, Ev.isEmit]

theorem bracketSpec_of_shape (b : String) (cs : List FrameResult)
    (r t : List Ev)
    (ht : t = .acquire :: emitsFor b cs ++ .release :: r)
    (hr1 : r.countP Ev.isAcquire = 0) (hr2 : r.countP Ev.isRelease = 0)
    (hr3 : r.countP Ev.isEmit = 0)
    (hr4 : (r.all fun e => !e.isEmit) = true) :
    t.head? = some .acquire ∧
    t.countP Ev.isAcquire = 1 ∧
    t.countP Ev.isRelease = 1 ∧
    noEmitAfterRelease t = true ∧
    t.countP Ev.isEmit = cs.length := by
  subst ht
  refine ⟨rfl, ?_, ?_, ?_, ?_⟩
  · simp [List.countP_cons, List.countP_append, emitsFor_countP_acquire,
      hr1, Ev.isAcquire]
  · simp [List.countP_cons, List.countP_append, emitsFor_countP_release,
      hr2, Ev.isRelease]
  · show noEmitAfterRelease (emitsFor b cs ++ .release :: r) = true
    rw [noEmitAfterRelease_emitsFor, noEmitAfterRelease_rel, hr4]
  · simp [List.countP_cons, List.countP_append, emitsFor_countP_emit,
      hr3, Ev.isEmit]

theorem emittedMsgs_runGen_none (eng : EngineBehavior) (b : String) :
    emittedMsgs (runGen eng b none) = (engineYields eng).map (frameMessage b) := by
  show emittedMsgs (emitsFor b (engineYields eng) ++ .release :: raiseEv eng)
    = (engineYields eng).map (frameMessage b)
  rw [emittedMsgs_append, emittedMsgs_emitsFor]
  rw [show emittedMsgs (Ev.release :: raiseEv eng) = emittedMsgs (raiseEv eng)
    from rfl]
  rw [emittedMsgs_raiseEv, List.append_nil]

theorem frameCurrentOf_frameMessage (c : FrameResult) :
    frameCurrentOf (frameMessage "frame" c) = some "-1" := by
  unfold frameCurrentOf frameMessage
  rw [decode_encode_valid _ _ _ (by decide)]
  rfl

/-! ## Claims -/

/-- C1: For every propagation call in which the consumer pulls at least once,
exactly one execution-context acquisition/release pair brackets the
consumption of the adapter's frame sequence: the context is acquired before
the first frame is pulled and released exactly once on every exit path
(normal exhaustion, an error raised mid-sequence, or abandonment), and if the
sequence raises after emitting `k` of `n` results, no further FrameMessage is
emitted after the `k`-th. (A generator abandoned before its first pull never
starts, so nothing is acquired or released in that degenerate case.) -/
theorem propagation_ctx_bracketing (eng : EngineBehavior) (b : String)
    (pulls : Option Nat) (h : pulls ≠ some 0) : BracketSpec eng b pulls := by
  cases pulls with
  | none =>
    obtain ⟨h1, h2, h3, h4, h5⟩ := bracketSpec_of_shape b (engineYields eng)
      (raiseEv eng) (runGen eng b none) rfl
      (raiseEv_countP_acquire eng) (raiseEv_countP_release eng)
      (raiseEv_countP_emit eng) (allNotEmit_raiseEv eng)
    refine ⟨h1, h2, h3, h4, ?_⟩
    intro k err hr _
    rw [h5]
    simp [engineYields, hr, List.length_take]
  | some m =>
    cases m with
    | zero => exact absurd rfl h
    | succ p =>
      by_cases hc : p + 1 ≤ (engineYields eng).length
      · have hshape : runGen eng b (some (p + 1))
            = .acquire :: emitsFor b ((engineYields eng).take (p + 1))
              ++ .release :: [] := by
          simp [runGen, hc]
        obtain ⟨h1, h2, h3, h4, _⟩ := bracketSpec_of_shape b
          ((engineYields eng).take (p + 1)) [] _ hshape rfl rfl rfl rfl
        exact ⟨h1, h2, h3, h4, fun k err _ hp => by simp at hp⟩
      · have hshape : runGen eng b (some (p + 1))
            = .acquire :: emitsFor b (engineYields eng)
              ++ .release :: raiseEv eng := by
          simp [runGen, hc]
        obtain ⟨h1, h2, h3, h4, _⟩ := bracketSpec_of_shape b (engineYields eng)
          (raiseEv eng) _ hshape
          (raiseEv_countP_acquire eng) (raiseEv_countP_release eng)
          (raiseEv_countP_emit eng) (allNotEmit_raiseEv eng)
        exact ⟨h1, h2, h3, h4, fun k err _ hp => by simp at hp⟩

/-- Witness for C1: an engine that raises after emitting 2 of 5 results,
consumed to the end. -/
theorem propagation_ctx_bracketing_witness :
    (none : Option Nat) ≠ some 0 ∧ BracketSpec cexEngine "frame" none :=
  ⟨by decide, propagation_ctx_bracketing cexEngine "frame" none (by decide)⟩

/-- C2 counterexample: for the adapter sequence with frame indices
`[0,1,2,3]`, the emitted `Frame-Current` headers are `"-1","-1","-1","-1"`,
not `"0","1","2","3"`: the code writes the literal `-1` for every frame. -/
theorem frame_current_headers_cex :
    (emittedMsgs (runGen ⟨cexFrames, none⟩ "frame" none)).map frameCurrentOf
      = [some "-1", some "-1", some "-1", some "-1"] ∧
    (emittedMsgs (runGen ⟨cexFrames, none⟩ "frame" none)).map frameCurrentOf
      ≠ [some "0", some "1", some "2", some "3"] := by
  constructor <;> decide

/-- C2 (amended): for every sequence of FrameResults produced by the adapter,
the Orchestrator emits one FrameMessage per FrameResult in the same order,
but every message's `Frame-Current` header is the literal string `"-1"`,
regardless of the frame index (the index is never surfaced; spec §9 flags
this as the interim documented behavior). -/
theorem frame_current_always_minus_one (cs : List FrameResult) :
    (emittedMsgs (runGen ⟨cs, none⟩ "frame" none)).map frameCurrentOf
      = cs.map fun _ => some "-1" := by
  rw [emittedMsgs_runGen_none]
  show (cs.map (frameMessage "frame")).map frameCurrentOf
    = cs.map fun _ => some "-1"
  rw [List.map_map]
  induction cs with
  | nil => rfl
  | cons c t ih =>
    simp only [List.map_cons]
    rw [ih]
    rw [show (frameCurrentOf ∘ frameMessage "frame") c = some "-1"
      from frameCurrentOf_frameMessage c]

/-- C3 counterexample: a payload whose `session_id` is the number `42` (not a
string) is accepted and starts a stream instead of failing with MissingField,
and a parseable non-object body (a JSON array) raises an uncaught
`AttributeError` (surfacing as a 500) instead of a clean 400 response. -/
theorem validator_gaps_cex :
    (propagate_in_video (some (.obj [("session_id", .num 42)]))).isStreaming
      = true ∧
    (propagate_in_video (some (.obj [("session_id", .num 42)]))).isBadRequest
      = false ∧
    (propagate_in_video (some (.arr []))).isBadRequest = false ∧
    (propagate_in_video (some (.arr []))).statusOf = 500 :=
  ⟨rfl, rfl, rfl, rfl⟩

/-- C3 (amended): validation fails with a 400 `Invalid JSON` response when
`request.json` is `None` (unparseable body or top-level null), and with a 400
`Missing session_id` response when `session_id` is absent; in both cases the
endpoint responds immediately with no streaming body. A parseable non-object
body instead raises an uncaught `AttributeError` (500, not a clean 400), and
a non-null non-string `session_id` is accepted (the code checks only for
`None`, not for the string type). -/
theorem validator_failure_responses
    (api : PropagateInVideoRequest → EngineBehavior) (pulls : Option Nat)
    (fields : List (String × Json)) (xs : List Json)
    (h : List.lookup "session_id" fields.reverse = none) :
    handle api none pulls = ((400, "Invalid JSON"), []) ∧
    handle api (some (.obj fields)) pulls
      = ((400, "Missing session_id"), []) ∧
    handle api (some (.arr xs)) pulls = ((500, "AttributeError"), []) := by
  refine ⟨rfl, ?_, rfl⟩
  simp [handle, propagate_in_video, pyGet, h, Json.isNull]

/-- Witness for C3 at the empty object and the empty array. -/
theorem validator_failure_responses_witness :
    List.lookup "session_id" ([] : List (String × Json)).reverse = none ∧
    (handle (fun _ => ⟨[], none⟩) none none = ((400, "Invalid JSON"), []) ∧
     handle (fun _ => ⟨[], none⟩) (some (.obj [])) none
       = ((400, "Missing session_id"), []) ∧
     handle (fun _ => ⟨[], none⟩) (some (.arr [])) none
       = ((500, "AttributeError"), [])) :=
  ⟨rfl, validator_failure_responses (fun _ => ⟨[], none⟩) none [] [] rfl⟩

/-- C4: for every valid payload, an absent `start_frame_index` defaults to 0
and an absent `quick_test_mode` defaults to false; in particular the payload
`{"session_id": "abc"}` yields the command
`(session_id="abc", start_frame_index=0, quick_test_mode=false)`. -/
theorem validator_defaults (fields : List (String × Json)) (mt b : String)
    (sid sfi qtm : Json)
    (h : propagate_in_video (some (.obj fields)) = .streaming mt b sid sfi qtm) :
    (List.lookup "start_frame_index" fields.reverse = none → sfi = .num 0) ∧
    (List.lookup "quick_test_mode" fields.reverse = none → qtm = .bool false) ∧
    propagate_in_video (some (.obj [("session_id", .str "abc")]))
      = .streaming "multipart/x-savi-stream; boundary=frame" "frame"
          (.str "abc") (.num 0) (.bool false) := by
  simp only [propagate_in_video] at h
  split at h
  · exact absurd h (by simp)
  · injection h with h1 h2 h3 h4 h5
    refine ⟨?_, ?_, rfl⟩
    · intro habs
      rw [← h4]
      simp [pyGet, habs]
    · intro habs
      rw [← h5]
      simp [pyGet, habs]

/-- Witness for C4 at the payload of the spec's example. -/
theorem validator_defaults_witness :
    propagate_in_video (some (.obj [("session_id", Json.str "abc")]))
      = .streaming "multipart/x-savi-stream; boundary=frame" "frame"
          (Json.str "abc") (Json.num 0) (Json.bool false) :=
  (validator_defaults [("session_id", Json.str "abc")] _ _ _ _ _ rfl).2.2

/-- C5: every request that passes validation starts a streaming response
whose content type is exactly `multipart/x-savi-stream; boundary=frame`, the
boundary being the fixed literal `"frame"`. -/
theorem stream_content_type (data : Option Json) (mt b : String)
    (sid sfi qtm : Json)
    (h : propagate_in_video data = .streaming mt b sid sfi qtm) :
    mt = "multipart/x-savi-stream; boundary=frame" ∧ b = "frame" := by
  cases data with
  | none => simp [propagate_in_video] at h
  | some j =>
    cases j with
    | null => simp [propagate_in_video] at h
    | bool x => simp [propagate_in_video] at h
    | num x => simp [propagate_in_video] at h
    | str x => simp [propagate_in_video] at h
    | arr xs => simp [propagate_in_video] at h
    | obj fields =>
      simp only [propagate_in_video] at h
      split at h
      · exact absurd h (by simp)
      · injection h with h1 h2 h3 h4 h5
        constructor
        · rw [← h1]
          decide
        · rw [← h2]

/-- Witness for C5 at a concrete valid payload. -/
theorem stream_content_type_witness :
    ("multipart/x-savi-stream; boundary=" ++ "frame")
      = "multipart/x-savi-stream; boundary=frame" ∧ "frame" = "frame" :=
  stream_content_type (some (.obj [("session_id", .str "abc")])) _ _ _ _ _ rfl

/-- C6: for every sequence of FrameResults yielded by the adapter, the
Orchestrator emits exactly one FrameMessage per FrameResult, in the same
order, and each message's body is the UTF-8 encoding of that FrameResult's
JSON serialization (recovered exactly by the codec). -/
theorem orchestrator_messages (eng : EngineBehavior) (b : String) :
    emittedMsgs (runGen eng b none) = (engineYields eng).map (frameMessage b) ∧
    ∀ c : FrameResult,
      decode b (frameMessage b c) = some (frameHeaders, strBytes c.to_json) :=
  ⟨emittedMsgs_runGen_none eng b,
   fun c => decode_encode_valid b frameHeaders (strBytes c.to_json) (by decide)⟩

/-- C7: `start_frame_index` and `quick_test_mode` are forwarded verbatim and
unchanged from the request payload into the `PropagateInVideoRequest` handed
to the inference engine; the generator applies the engine to exactly that
request. -/
theorem engine_request_verbatim (fields : List (String × Json)) (mt b : String)
    (sid sfi qtm v w : Json)
    (h : propagate_in_video (some (.obj fields)) = .streaming mt b sid sfi qtm)
    (hv : List.lookup "start_frame_index" fields.reverse = some v)
    (hw : List.lookup "quick_test_mode" fields.reverse = some w) :
    sfi = v ∧ qtm = w ∧
    (gen_track_request sid sfi qtm).start_frame_index = v ∧
    (gen_track_request sid sfi qtm).quick_test_mode = w ∧
    ∀ (api : PropagateInVideoRequest → EngineBehavior) (pulls : Option Nat),
      gen_track_with_mask_stream api b sid sfi qtm pulls
        = runGen (api ⟨"propagate_in_video", sid, v, w⟩) b pulls := by
  simp only [propagate_in_video] at h
  split at h
  · exact absurd h (by simp)
  · injection h with h1 h2 h3 h4 h5
    have hsfi : sfi = v := by
      rw [← h4]
      simp [pyGet, hv]
    have hqtm : qtm = w := by
      rw [← h5]
      simp [pyGet, hw]
    refine ⟨hsfi, hqtm, hsfi, hqtm, fun api pulls => ?_⟩
    simp [gen_track_with_mask_stream, gen_track_request, hsfi, hqtm]

/-- Witness for C7 at a payload carrying explicit values for both fields. -/
theorem engine_request_verbatim_witness :
    Json.num 5 = Json.num 5 ∧ Json.bool true = Json.bool true ∧
    (gen_track_request (.str "s") (.num 5) (.bool true)).start_frame_index
      = Json.num 5 ∧
    (gen_track_request (.str "s") (.num 5) (.bool true)).quick_test_mode
      = Json.bool true ∧
    ∀ (api : PropagateInVideoRequest → EngineBehavior) (pulls : Option Nat),
      gen_track_with_mask_stream api "frame" (.str "s") (.num 5) (.bool true)
          pulls
        = runGen (api ⟨"propagate_in_video", .str "s", .num 5, .bool true⟩)
            "frame" pulls :=
  engine_request_verbatim
    [("session_id", .str "s"), ("start_frame_index", .num 5),
     ("quick_test_mode", .bool true)]
    _ "frame" (.str "s") (.num 5) (.bool true) (.num 5) (.bool true)
    rfl rfl rfl

/-- C8 counterexample: the round-trip fails in full generality; a header
value containing a line terminator is re-parsed as two distinct headers. -/
theorem codec_roundtrip_cex :
    decode "frame" (encode "frame" [("K", "x\r\nY: z")] [])
      = some ([("K", "x"), ("Y", "z")], []) ∧
    decode "frame" (encode "frame" [("K", "x\r\nY: z")] [])
      ≠ some ([("K", "x\r\nY: z")], []) := by
  constructor <;> decide

/-- C8 (amended): for every boundary string, every body byte sequence, and
every headers mapping whose keys contain no colon and whose keys and values
contain no carriage return (the delimiter characters of the wire format),
decoding the encoded frame message recovers exactly the original pair:
`decode(encode(boundary, headers, body)) = (headers, body)`. -/
theorem codec_roundtrip (b : String) (hs : List (String × String))
    (body : List Char) (hvalid : ∀ kv ∈ hs, validHeader kv) :
    decode b (encode b hs body) = some (hs, body) :=
  decode_encode_valid b hs body hvalid

/-- Witness for C8 at the endpoint's own header mapping. -/
theorem codec_roundtrip_witness :
    (∀ kv ∈ frameHeaders, validHeader kv) ∧
    decode "frame" (encode "frame" frameHeaders ['a'])
      = some (frameHeaders, ['a']) :=
  ⟨by decide, codec_roundtrip "frame" frameHeaders ['a'] (by decide)⟩

/-- C9: a payload whose `session_id` key is explicitly bound to `null` is
rejected with the same 400 `Missing session_id` response as a payload with no
`session_id` key at all: `dict.get` returns Python `None` in both cases. -/
theorem null_session_id_rejected (fields : List (String × Json))
    (h : List.lookup "session_id" fields.reverse = some Json.null) :
    propagate_in_video (some (.obj fields))
      = .badRequest "Missing session_id" 400 ∧
    propagate_in_video (some (.obj []))
      = .badRequest "Missing session_id" 400 := by
  refine ⟨?_, rfl⟩
  simp [propagate_in_video, pyGet, h, Json.isNull]

/-- Witness for C9 at the payload with an explicit null `session_id`. -/
theorem null_session_id_rejected_witness :
    propagate_in_video (some (.obj [("session_id", Json.null)]))
      = .badRequest "Missing session_id" 400 ∧
    propagate_in_video (some (.obj []))
      = .badRequest "Missing session_id" 400 :=
  null_session_id_rejected [("session_id", Json.null)] rfl

/-- C10: the status and content type the endpoint commits to are independent
of the engine's behavior and of how far the stream is consumed (the generator
has not executed at commit time); a validated request always commits to
status 200, and an engine that immediately raises `SessionNotFound` can only
truncate the already-started 200 stream to zero messages, never change the
status to a 4xx/5xx. -/
theorem status_committed_before_engine
    (api api2 : PropagateInVideoRequest → EngineBehavior)
    (data : Option Json) (pulls pulls2 : Option Nat) :
    (handle api data pulls).1 = (handle api2 data pulls2).1 ∧
    ∀ mt b sid sfi qtm,
      propagate_in_video data = .streaming mt b sid sfi qtm →
      (handle api data pulls).1 = (200, mt) ∧
      emittedMsgs
        (handle (fun _ => ⟨[], some (0, .sessionNotFound)⟩) data none).2
        = [] := by
  constructor
  · cases hp : propagate_in_video data <;> simp [handle, hp]
  · intro mt b sid sfi qtm hs
    constructor
    · simp [handle, hs]
    · simp only [handle, hs, gen_track_with_mask_stream]
      rw [emittedMsgs_runGen_none]
      rfl

/-- Witness for C10 at a concrete valid payload and two engines. -/
theorem status_committed_before_engine_witness :
    (handle (fun _ => ⟨[], none⟩)
        (some (.obj [("session_id", Json.str "s")])) none).1
      = (200, "multipart/x-savi-stream; boundary=" ++ "frame") ∧
    emittedMsgs
      (handle (fun _ => ⟨[], some (0, .sessionNotFound)⟩)
        (some (.obj [("session_id", Json.str "s")])) none).2
      = [] :=
  (status_committed_before_engine (fun _ => ⟨[], none⟩) (fun _ => ⟨[], none⟩)
    (some (.obj [("session_id", Json.str "s")])) none none).2 _ _ _ _ _ rfl
